import Mathlib

/-!
Shallow embedding of the `applepassgenerator` library (Python), restricted to
the parts the verified claims exercise:

* `src/applepassgenerator/models/barcodes.py`       (`Barcode`)
* `src/applepassgenerator/models/locations.py`      (`Location`, `IBeacon`)
* `src/applepassgenerator/models/relevant_date.py`  (`RelevantDate`)
* `src/applepassgenerator/models/pass_base.py`      (`ApplePass`)
* `src/applepassgenerator/utils.py`                 (`rgb_color`, `hex_to_rgb`)

Modelling conventions:
* Python values that can be `None` become `Option`; Python truthiness of a
  string-or-None value is `strTruthy` below.
* Python exceptions become `Except String`; the error string is the message
  from the source (without the dynamic type-name suffix where one appears,
  the suffix is reproduced via `PyVal.typeName`).
* Python `dict` becomes an insertion-ordered association list; assignment
  `d[k] = v` is `dictInsert`, which updates in place (keeping the key's
  position) or appends a fresh key, exactly like CPython dicts.
* `hashlib.sha1(...).hexdigest()` and the PKCS#7 signer are external library
  calls; they are modelled as function parameters (`sha1Hex`, `signer`)
  threaded through assembly.
* Floats carry no arithmetic here (they are only stored and re-emitted), so
  they are modelled as rationals.
-/

/-- JSON values, as produced by the library's `json_dict` projections.
Objects are insertion-ordered association lists, as in CPython. -/
inductive JValue where
  | null
  | bool (b : Bool)
  | int (i : Int)
  | float (q : ℚ)
  | str (s : String)
  | arr (xs : List JValue)
  | obj (kvs : List (String × JValue))
  deriving Repr

/-- Python truthiness of an optional string (`None` and `""` are falsy). -/
def strTruthy : Option String → Bool
  | none => false
  | some s => s ≠ ""

/-- Python truthiness of a JSON value (used for `if self.user_info:` etc.). -/
def jvTruthy : JValue → Bool
  | .null => false
  | .bool b => b
  | .int i => i ≠ 0
  | .float q => q ≠ 0
  | .str s => s ≠ ""
  | .arr xs => !xs.isEmpty
  | .obj kvs => !kvs.isEmpty

/-- Ordered-dict lookup (first occurrence), as Python `d[k]` reads. -/
def dictLookup {α : Type} : List (String × α) → String → Option α
  | [], _ => none
  | (k, v) :: rest, key => if k = key then some v else dictLookup rest key

/-- Ordered-dict assignment `d[k] = v`: update in place if the key exists
(keeping its position), otherwise append, as CPython dicts do. -/
def dictInsert {α : Type} (l : List (String × α)) (key : String) (v : α) :
    List (String × α) :=
  if (dictLookup l key).isSome then
    l.map (fun kv => if kv.1 = key then (key, v) else kv)
  else
    l ++ [(key, v)]

/-- The keys of an ordered dict, in order. -/
def dictKeys {α : Type} (l : List (String × α)) : List String :=
  l.map Prod.fst

/-- One lowercase hex digit. -/
def hexDigitLower (n : Nat) : Char :=
  if n < 10 then Char.ofNat (48 + n) else Char.ofNat (87 + n)

/-- Four lowercase hex digits, as in Python's `\uXXXX` escapes. -/
def hex4 (n : Nat) : String :=
  String.mk [hexDigitLower (n / 4096 % 16), hexDigitLower (n / 256 % 16),
             hexDigitLower (n / 16 % 16), hexDigitLower (n % 16)]

/-- Escape one character the way `json.dumps` (with its default
`ensure_ascii=True`) does: the two-character escapes for quote, backslash
and common control characters, `\uXXXX` for other control or non-ASCII
characters (a surrogate pair above U+FFFF), the character itself otherwise. -/
def jsonEscapeChar (c : Char) : String :=
  if c = '\"' then "\\\""
  else if c = '\\' then "\\\\"
  else if c = Char.ofNat 8 then "\\b"
  else if c = Char.ofNat 9 then "\\t"
  else if c = Char.ofNat 10 then "\\n"
  else if c = Char.ofNat 12 then "\\f"
  else if c = Char.ofNat 13 then "\\r"
  else if c.toNat < 32 ∨ 126 < c.toNat then
    if c.toNat ≤ 65535 then "\\u" ++ hex4 c.toNat
    else
      let n := c.toNat - 65536
      "\\u" ++ hex4 (55296 + n / 1024) ++ "\\u" ++ hex4 (56320 + n % 1024)
  else String.singleton c

/-- A JSON string literal with `json.dumps` escaping. -/
def jsonStringLit (s : String) : String :=
  "\"" ++ String.join (s.toList.map jsonEscapeChar) ++ "\""

/-- Join with `json.dumps`' default item separator. -/
def joinComma : List String → String
  | [] => ""
  | [x] => x
  | x :: rest => x ++ ", " ++ joinComma rest

/-- Serialization of a rational standing in for a Python float.  The library
never computes with these numbers, so only determinism of the rendering
matters; Python's shortest-repr float formatting is not reproduced. -/
def floatRepr (q : ℚ) : String :=
  if q.den = 1 then toString q.num ++ ".0" else toString q.num ++ "/" ++ toString q.den

mutual

/-- `json.dumps` with its default separators (`", "` and `": "`),
`ensure_ascii=True` escaping, and insertion-order key emission. -/
def JValue.dumps : JValue → String
  | .null => "null"
  | .bool b => if b then "true" else "false"
  | .int i => toString i
  | .float q => floatRepr q
  | .str s => jsonStringLit s
  | .arr xs => "[" ++ joinComma (JValue.dumpsList xs) ++ "]"
  | .obj kvs => "\x7b" ++ joinComma (JValue.dumpsObj kvs) ++ "\x7d"

def JValue.dumpsList : List JValue → List String
  | [] => []
  | v :: rest => JValue.dumps v :: JValue.dumpsList rest

def JValue.dumpsObj : List (String × JValue) → List String
  | [] => []
  | (k, v) :: rest => (jsonStringLit k ++ ": " ++ JValue.dumps v) :: JValue.dumpsObj rest

end

/-- `json.dumps` of a flat string→string dict (the manifest). -/
def dumpsStrDict (l : List (String × String)) : String :=
  JValue.dumps (.obj (l.map (fun kv => (kv.1, .str kv.2))))

/-! ## Barcode (`models/barcodes.py`) -/

namespace BarcodeFormat

/-- `BarcodeFormat.PDF417` (`models/constants.py`). -/
def PDF417 : String := "PKBarcodeFormatPDF417"

/-- `BarcodeFormat.QR`. -/
def QR : String := "PKBarcodeFormatQR"

/-- `BarcodeFormat.AZTEC`. -/
def AZTEC : String := "PKBarcodeFormatAztec"

/-- `BarcodeFormat.CODE128`. -/
def CODE128 : String := "PKBarcodeFormatCode128"

end BarcodeFormat

/-- A constructed `Barcode`.  `altText = none` models the `altText`
attribute being absent (it is only set when `alt_text is not None`). -/
structure Barcode where
  format : String
  message : String
  messageEncoding : String
  altText : Option String
  deriving Repr, DecidableEq

/-- The valid-format list from the `format` property setter. -/
def validBarcodeFormats : List String :=
  [BarcodeFormat.PDF417, BarcodeFormat.QR, BarcodeFormat.AZTEC, BarcodeFormat.CODE128]

/-- `Barcode.__init__(message, format, encoding, alt_text)`.  The `format`
property setter runs first (the constructor assigns `self.format` before
`self.message`) and rejects formats outside the fixed list; the `message`
setter rejects falsy messages. -/
def Barcode.init (message : String) (format : String)
    (encoding : String) (alt_text : Option String) :
    Except String Barcode :=
  if format ∉ validBarcodeFormats then
    .error ("Invalid barcode format: " ++ format ++ ". Must be one of: " ++
      "BarcodeFormat.PDF417, BarcodeFormat.QR, BarcodeFormat.AZTEC, " ++
      "or BarcodeFormat.CODE128")
  else if message = "" then
    .error "Barcode message cannot be empty"
  else
    .ok { format := format, message := message, messageEncoding := encoding,
          altText := alt_text }

/-- `Barcode.json_dict`: format, message and messageEncoding always;
`altText` only when the attribute exists and is not `None`. -/
def Barcode.jsonDict (b : Barcode) : List (String × JValue) :=
  [("format", .str b.format), ("message", .str b.message),
   ("messageEncoding", .str b.messageEncoding)] ++
  (match b.altText with
   | some t => [("altText", JValue.str t)]
   | none => [])

/-! ## Location and IBeacon (`models/locations.py`) -/

/-- A constructed `Location`.  Coordinates are stored floats (here ℚ). -/
structure Location where
  latitude : ℚ
  longitude : ℚ
  altitude : Option ℚ
  maxDistance : Option ℚ
  relevantText : Option String
  deriving Repr, DecidableEq

/-- A value passed to Python's `float(...)` inside a `try`: `some q` when the
conversion succeeds with result `q`, `none` when it raises
`ValueError`/`TypeError` (unparseable string, `None`, etc.). -/
abbrev FloatInput := Option ℚ

/-- `Location.__init__`.  Total: every failed `float(...)` conversion is
caught.  Latitude/longitude fall back to `0.0`; a non-`None` but unparseable
`altitude` falls back to `0.0` while the same case for `max_distance` falls
back to `None`; no range check is performed anywhere.  The outer `Option` on
`altitude`/`max_distance` is the Python argument being `None` or not. -/
def Location.init (latitude longitude : FloatInput)
    (altitude : Option FloatInput)
    (relevant_text : Option String)
    (max_distance : Option FloatInput) : Location :=
  { latitude := latitude.getD 0
    longitude := longitude.getD 0
    altitude := match altitude with
      | none => none
      | some conv => some (conv.getD 0)
    maxDistance := match max_distance with
      | none => none
      | some conv => conv
    relevantText := if strTruthy relevant_text then relevant_text else none }

/-- `Location.json_dict`. -/
def Location.jsonDict (l : Location) : List (String × JValue) :=
  [("latitude", .float l.latitude), ("longitude", .float l.longitude)] ++
  (match l.altitude with
   | some a => [("altitude", JValue.float a)]
   | none => []) ++
  (match l.maxDistance with
   | some m => [("maxDistance", JValue.float m)]
   | none => []) ++
  (if strTruthy l.relevantText then [("relevantText", JValue.str (l.relevantText.getD ""))]
   else [])

/-- A constructed `IBeacon` (`IBeacon.__init__` stores its arguments
unchanged, except that a falsy `relevant_text` becomes `None`). -/
structure IBeacon where
  proximityUUID : String
  major : Option Int
  minor : Option Int
  relevantText : Option String
  deriving Repr, DecidableEq

/-- `IBeacon.__init__`. -/
def IBeacon.init (proximity_uuid : String) (major : Option Int)
    (minor : Option Int) (relevant_text : Option String) : IBeacon :=
  { proximityUUID := proximity_uuid, major := major, minor := minor,
    relevantText := if strTruthy relevant_text then relevant_text else none }

/-- `IBeacon.json_dict`. -/
def IBeacon.jsonDict (b : IBeacon) : List (String × JValue) :=
  [("proximityUUID", .str b.proximityUUID)] ++
  (match b.major with
   | some m => [("major", JValue.int m)]
   | none => []) ++
  (match b.minor with
   | some m => [("minor", JValue.int m)]
   | none => []) ++
  (if strTruthy b.relevantText then [("relevantText", JValue.str (b.relevantText.getD ""))]
   else [])

/-! ## RelevantDate (`models/relevant_date.py`) -/

/-- A constructed `RelevantDate`.  Attributes are stored verbatim (the
`start_date`/`end_date` arguments land in camelCase attributes). -/
structure RelevantDate where
  date : Option String
  startDate : Option String
  endDate : Option String
  deriving Repr, DecidableEq

/-- `RelevantDate.__init__`: the three validation branches, in source order
(mutual exclusion, start/end pairing, at-least-one), each testing Python
truthiness of the arguments. -/
def RelevantDate.init (date : Option String)
    (start_date : Option String) (end_date : Option String) :
    Except String RelevantDate :=
  if strTruthy date && (strTruthy start_date || strTruthy end_date) then
    .error ("Cannot specify both \x27date\x27 and \x27start_date/end_date\x27. " ++
      "Use \x27date\x27 for auto-calculated interval OR \x27start_date/end_date\x27 for explicit interval.")
  else if (strTruthy start_date && !strTruthy end_date) ||
          (strTruthy end_date && !strTruthy start_date) then
    .error "Both \x27start_date\x27 and \x27end_date\x27 must be provided together."
  else if !strTruthy date && !strTruthy start_date then
    .error "Must provide either \x27date\x27 or both \x27start_date\x27 and \x27end_date\x27."
  else
    .ok { date := date, startDate := start_date, endDate := end_date }

/-- The per-entry dictionary built inline in `ApplePass.json_dict`
(lines 534–543 of `pass_base.py`): each of the three attributes contributes
a key when truthy.  It coincides with `RelevantDate.json_dict`. -/
def RelevantDate.entryDict (r : RelevantDate) : List (String × JValue) :=
  (if strTruthy r.date then [("date", JValue.str (r.date.getD ""))] else []) ++
  (if strTruthy r.startDate then [("startDate", JValue.str (r.startDate.getD ""))] else []) ++
  (if strTruthy r.endDate then [("endDate", JValue.str (r.endDate.getD ""))] else [])

/-! ## Color utilities (`utils.py`) -/

/-- `rgb_color(r, g, b)`: range check then `f"rgb({r}, {g}, {b})"`.
(The `isinstance(..., int)` check is subsumed by the `Int` typing.) -/
def rgb_color (r g b : Int) : Except String String :=
  if !(0 ≤ r && r ≤ 255 && 0 ≤ g && g ≤ 255 && 0 ≤ b && b ≤ 255) then
    .error "RGB values must be between 0 and 255"
  else
    .ok s!"rgb({r}, {g}, {b})"

/-- Value of a hex digit, `none` for a non-hex character. -/
def hexDigitVal (c : Char) : Option Nat :=
  if '0' ≤ c ∧ c ≤ '9' then some (c.toNat - 48)
  else if 'a' ≤ c ∧ c ≤ 'f' then some (c.toNat - 87)
  else if 'A' ≤ c ∧ c ≤ 'F' then some (c.toNat - 55)
  else none

/-- Whether `int(s, 16)` succeeds, modelled for plain digit strings: every
character is a hex digit (the string is non-empty at the call site, its
length having been checked to be 3 or 6). -/
def allHexDigits (s : String) : Bool :=
  s.toList.all (fun c => (hexDigitVal c).isSome)

/-- `int(s, 16)` on a string of hex digits. -/
def hexValue (cs : List Char) : Nat :=
  cs.foldl (fun acc c => acc * 16 + (hexDigitVal c).getD 0) 0

/-- `hex_to_rgb`: strip leading `#`, check length 3 or 6, check hex
characters, double each digit of a 3-digit form, slice into three byte
values, delegate to `rgb_color`. -/
def hex_to_rgb (hex_color : String) : Except String String :=
  let s := String.mk (hex_color.toList.dropWhile (· = '#'))
  if s.length ≠ 3 ∧ s.length ≠ 6 then
    .error "Hex color must be 3 or 6 characters (excluding \x27#\x27)"
  else if !allHexDigits s then
    .error ("Invalid hex color: \x27" ++ s ++ "\x27 contains non-hex characters")
  else
    let expanded := if s.length = 3 then s.toList.flatMap (fun c => [c, c]) else s.toList
    let r := hexValue (expanded.take 2)
    let g := hexValue ((expanded.drop 2).take 2)
    let b := hexValue ((expanded.drop 4).take 2)
    rgb_color r g b

/-! ## PassInformation (`models/pass_types.py`), reduced to its contract -/

/-- The five pass-type variants; each determines the JSON key its projection
nests under. -/
inductive PassVariant where
  | boardingPass
  | coupon
  | eventTicket
  | generic
  | storeCard
  deriving Repr, DecidableEq

/-- The `jsonname` attribute of each variant. -/
def PassVariant.jsonname : PassVariant → String
  | .boardingPass => "boardingPass"
  | .coupon => "coupon"
  | .eventTicket => "eventTicket"
  | .generic => "generic"
  | .storeCard => "storeCard"

/-- A `PassInformation` instance, reduced to its serialization contract:
its variant (fixing `jsonname`) and the dictionary its `json_dict` returns.
The field collections themselves are not exercised by any claim. -/
structure PassInfo where
  variant : PassVariant
  payload : List (String × JValue)
  deriving Repr

/-- `PassInformation.json_dict` output. -/
def PassInfo.jsonDict (pi : PassInfo) : List (String × JValue) :=
  pi.payload

/-! ## ApplePass (`models/pass_base.py`) -/

/-- A dynamically typed Python value as it reaches `ApplePass.__setattr__`
or one of the `add_*` methods (only the shapes those methods inspect). -/
inductive PyVal where
  | pyNone
  | pyStr (s : String)
  | pyBarcode (b : Barcode)
  | pyLocation (l : Location)
  | pyBeacon (b : IBeacon)
  | pyRelevantDate (r : RelevantDate)
  | pyList (xs : List PyVal)
  deriving Repr

/-- `type(value).__name__`, used in the `TypeError` messages. -/
def PyVal.typeName : PyVal → String
  | .pyNone => "NoneType"
  | .pyStr _ => "str"
  | .pyBarcode _ => "Barcode"
  | .pyLocation _ => "Location"
  | .pyBeacon _ => "IBeacon"
  | .pyRelevantDate _ => "RelevantDate"
  | .pyList _ => "list"

/-- `value is None`. -/
def PyVal.isNone : PyVal → Bool
  | .pyNone => true
  | .pyStr _ => false
  | .pyBarcode _ => false
  | .pyLocation _ => false
  | .pyBeacon _ => false
  | .pyRelevantDate _ => false
  | .pyList _ => false

/-- `isinstance(value, list)`, with the elements when it holds. -/
def PyVal.asList : PyVal → Option (List PyVal)
  | .pyList xs => some xs
  | .pyNone => none
  | .pyStr _ => none
  | .pyBarcode _ => none
  | .pyLocation _ => none
  | .pyBeacon _ => none
  | .pyRelevantDate _ => none

/-- The `ApplePass` instance state (its `__dict__`).  Attribute names set in
`__init__` are structure fields; `extra` holds any further attribute names
later stored through the normal `super().__setattr__` path.  `nfc`,
`semantics` and `personalization` are nested objects carried here as their
`json_dict` projections; `user_info` and `associated_store_identifiers` are
raw JSON data. -/
structure ApplePass where
  files : List (String × List Nat)
  hashes : List (String × String)
  pass_type_identifier : String
  organization_name : String
  team_identifier : String
  serial_number : String
  description : String
  format_version : Int
  background_color : Option String
  foreground_color : Option String
  label_color : Option String
  logo_text : Option String
  suppress_strip_shine : Bool
  barcodes : List Barcode
  web_service_url : Option String
  authentication_token : Option String
  locations : List Location
  beacons : List IBeacon
  relevant_dates : List RelevantDate
  nfc : Option (List (String × JValue))
  semantics : Option (List (String × JValue))
  personalization : Option (List (String × JValue))
  grouping_identifier : Option String
  sharing_prohibited : Option Bool
  upcoming_event_info : Option (List (List (String × JValue)))
  associated_store_identifiers : Option JValue
  app_launch_url : Option String
  expiration_date : Option String
  voided : Option Bool
  user_info : Option JValue
  pass_information : PassInfo
  extra : List (String × PyVal)

/-- `ApplePass.__init__`: every attribute it assigns, with its default. -/
def ApplePass.initial (pass_information : PassInfo) (pass_type_identifier : String)
    (organization_name : String) (team_identifier : String) : ApplePass :=
  { files := [], hashes := []
    pass_type_identifier := pass_type_identifier
    organization_name := organization_name
    team_identifier := team_identifier
    serial_number := "", description := "", format_version := 1
    background_color := none, foreground_color := none, label_color := none
    logo_text := none, suppress_strip_shine := false
    barcodes := []
    web_service_url := none, authentication_token := none
    locations := [], beacons := [], relevant_dates := []
    nfc := none, semantics := none, personalization := none
    grouping_identifier := none, sharing_prohibited := none
    upcoming_event_info := none
    associated_store_identifiers := none, app_launch_url := none
    expiration_date := none, voided := none, user_info := none
    pass_information := pass_information
    extra := [] }

/-- `ApplePass.add_barcode` on a dynamic argument: `isinstance` check, then
append. -/
def addBarcodeChecked (bs : List Barcode) (v : PyVal) : Except String (List Barcode) :=
  match v with
  | .pyBarcode b => .ok (bs ++ [b])
  | _ => .error ("barcode must be a Barcode instance, got " ++ v.typeName)

/-- `ApplePass.add_location` on a dynamic argument: `isinstance` check, then
the 10-location cap, then append. -/
def addLocationChecked (ls : List Location) (v : PyVal) : Except String (List Location) :=
  match v with
  | .pyLocation l =>
    if ls.length ≥ 10 then .error "Maximum 10 locations allowed per pass"
    else .ok (ls ++ [l])
  | _ => .error ("location must be a Location instance, got " ++ v.typeName)

/-- `ApplePass.add_beacon`: `isinstance` check, then the 10-beacon cap,
then append. -/
def addBeaconChecked (bs : List IBeacon) (v : PyVal) : Except String (List IBeacon) :=
  match v with
  | .pyBeacon b =>
    if bs.length ≥ 10 then .error "Maximum 10 beacons allowed per pass"
    else .ok (bs ++ [b])
  | _ => .error ("beacon must be an IBeacon instance, got " ++ v.typeName)

/-- `ApplePass.add_relevant_date`: a string is converted through
`RelevantDate(date=...)` (whose validation can raise), a `RelevantDate` is
appended as-is, anything else is a `TypeError`. -/
def addRelevantDateChecked (rs : List RelevantDate) (v : PyVal) :
    Except String (List RelevantDate) :=
  match v with
  | .pyStr s =>
    match RelevantDate.init (some s) none none with
    | .ok r => .ok (rs ++ [r])
    | .error e => .error e
  | .pyRelevantDate r => .ok (rs ++ [r])
  | _ => .error ("date must be a RelevantDate instance or string, got " ++ v.typeName)

/-- The `for loc in value: self.add_location(loc)` loop from `__setattr__`.
A raised exception propagates with the elements appended so far kept
(Python mutates in place), so the error carries the partially updated
list. -/
def addLocationsLoop : List Location → List PyVal →
    Except (String × List Location) (List Location)
  | ls, [] => .ok ls
  | ls, v :: vs =>
    match addLocationChecked ls v with
    | .ok ls2 => addLocationsLoop ls2 vs
    | .error e => .error (e, ls)

/-- The `for beacon in value: self.add_beacon(beacon)` loop. -/
def addBeaconsLoop : List IBeacon → List PyVal →
    Except (String × List IBeacon) (List IBeacon)
  | bs, [] => .ok bs
  | bs, v :: vs =>
    match addBeaconChecked bs v with
    | .ok bs2 => addBeaconsLoop bs2 vs
    | .error e => .error (e, bs)

/-- `ApplePass.__setattr__`: the four deprecated attribute names are
intercepted (a `None` value is dropped, lists for `locations`/`ibeacons`
are looped over, everything else forwards to the matching `add_*` method);
every other name is stored by `super().__setattr__`, modelled as the
`extra` attribute dictionary.  (The `not name.startswith('_')` conjunct in
the source is vacuous: none of the four literals starts with `_`.)  An
error result carries the instance state at the point the exception was
raised. -/
def ApplePass.setattr (p : ApplePass) (name : String) (v : PyVal) :
    Except (String × ApplePass) ApplePass :=
  if name = "barcode" then
    if v.isNone then .ok p
    else
      match addBarcodeChecked p.barcodes v with
      | .ok bs => .ok { p with barcodes := bs }
      | .error e => .error (e, p)
  else if name = "locations" then
    if v.isNone then .ok p
    else
      match v.asList with
      | some xs =>
        match addLocationsLoop p.locations xs with
        | .ok ls => .ok { p with locations := ls }
        | .error (e, ls) => .error (e, { p with locations := ls })
      | none =>
        match addLocationChecked p.locations v with
        | .ok ls => .ok { p with locations := ls }
        | .error e => .error (e, p)
  else if name = "ibeacons" then
    if v.isNone then .ok p
    else
      match v.asList with
      | some xs =>
        match addBeaconsLoop p.beacons xs with
        | .ok bs => .ok { p with beacons := bs }
        | .error (e, bs) => .error (e, { p with beacons := bs })
      | none =>
        match addBeaconChecked p.beacons v with
        | .ok bs => .ok { p with beacons := bs }
        | .error e => .error (e, p)
  else if name = "relevant_date" then
    if v.isNone then .ok p
    else
      match addRelevantDateChecked p.relevant_dates v with
      | .ok rs => .ok { p with relevant_dates := rs }
      | .error e => .error (e, p)
  else
    .ok { p with extra := dictInsert p.extra name v }

/-- `ApplePass.add_file`: store the file's bytes under its name. -/
def ApplePass.addFile (p : ApplePass) (name : String) (data : List Nat) : ApplePass :=
  { p with files := dictInsert p.files name data }

/-- The legacy-format list from `json_dict` (line 514 of `pass_base.py`). -/
def legacyFormats : List String :=
  [BarcodeFormat.PDF417, BarcodeFormat.QR, BarcodeFormat.AZTEC]

/-- The synthesized legacy barcode from the `else` branch of the barcode
section of `json_dict` (lines 520–525 of `pass_base.py`).  The source calls
`Barcode(first_barcode.message, BarcodeFormat.PDF417,
getattr(first_barcode, 'altText', ''), first_barcode.messageEncoding)`
**positionally**, while `Barcode.__init__`'s parameters are
`(message, format, encoding, alt_text)`: the original barcode's `altText`
(or `''`) lands in `messageEncoding`, and the original `messageEncoding`
lands in `altText`.  This mix-up is reproduced faithfully here.  The
constructor's validation necessarily passes at this call site (the message
comes from an already-validated barcode, the format literal is valid), so
the record is built directly. -/
def legacyBarcode (b : Barcode) : Barcode :=
  { format := BarcodeFormat.PDF417
    message := b.message
    messageEncoding := b.altText.getD ""
    altText := some b.messageEncoding }

/-- An optional string emitted as-is (Python `None` becomes JSON `null`),
as `json_dict` does for `authenticationToken` and the fallback
`relevantDate`. -/
def optStrJ : Option String → JValue
  | none => .null
  | some s => .str s

/-- `ApplePass.json_dict`: the required keys in source order, then every
conditional section in source order.  Each `if cond: d[key] = v` becomes a
list append guarded by the same (truthiness) condition. -/
def ApplePass.jsonDict (p : ApplePass) : List (String × JValue) :=
  [("description", .str p.description),
   ("formatVersion", .int p.format_version),
   ("organizationName", .str p.organization_name),
   ("passTypeIdentifier", .str p.pass_type_identifier),
   ("serialNumber", .str p.serial_number),
   ("teamIdentifier", .str p.team_identifier),
   ("suppressStripShine", .bool p.suppress_strip_shine),
   (p.pass_information.variant.jsonname, .obj p.pass_information.jsonDict)] ++
  -- Barcodes: modern array plus legacy singular from the first barcode.
  (match p.barcodes with
   | [] => []
   | first :: _ =>
     [("barcodes", JValue.arr (p.barcodes.map (fun b => .obj b.jsonDict)))] ++
     (if first.format ∈ legacyFormats then
        [("barcode", JValue.obj first.jsonDict)]
      else
        [("barcode", JValue.obj (legacyBarcode first).jsonDict)])) ++
  -- Relevant dates: modern array (empty entries dropped, the key itself
  -- dropped when no entry survives) plus legacy singular from the first.
  (match p.relevant_dates with
   | [] => []
   | first :: _ =>
     let entries := (p.relevant_dates.map RelevantDate.entryDict).filter
       (fun e => !e.isEmpty)
     (if !entries.isEmpty then
        [("relevantDates", JValue.arr (entries.map JValue.obj))]
      else []) ++
     [("relevantDate",
       if strTruthy first.date then JValue.str (first.date.getD "")
       else if strTruthy first.startDate then JValue.str (first.startDate.getD "")
       else optStrJ first.endDate)]) ++
  (if !p.locations.isEmpty then
     [("locations", JValue.arr (p.locations.map (fun l => .obj l.jsonDict)))]
   else []) ++
  (if !p.beacons.isEmpty then
     [("beacons", JValue.arr (p.beacons.map (fun b => .obj b.jsonDict)))]
   else []) ++
  (if strTruthy p.background_color then
     [("backgroundColor", JValue.str (p.background_color.getD ""))] else []) ++
  (if strTruthy p.foreground_color then
     [("foregroundColor", JValue.str (p.foreground_color.getD ""))] else []) ++
  (if strTruthy p.label_color then
     [("labelColor", JValue.str (p.label_color.getD ""))] else []) ++
  (if strTruthy p.logo_text then
     [("logoText", JValue.str (p.logo_text.getD ""))] else []) ++
  (if strTruthy p.web_service_url then
     [("webServiceURL", JValue.str (p.web_service_url.getD "")),
      ("authenticationToken", optStrJ p.authentication_token)] else []) ++
  (if jvTruthy ((p.associated_store_identifiers).getD .null) then
     [("associatedStoreIdentifiers", (p.associated_store_identifiers).getD .null)]
   else []) ++
  (if strTruthy p.app_launch_url then
     [("appLaunchURL", JValue.str (p.app_launch_url.getD ""))] else []) ++
  (if strTruthy p.expiration_date then
     [("expirationDate", JValue.str (p.expiration_date.getD ""))] else []) ++
  (if p.voided.getD false then [("voided", JValue.bool true)] else []) ++
  (if jvTruthy ((p.user_info).getD .null) then
     [("userInfo", (p.user_info).getD .null)] else []) ++
  (if strTruthy p.grouping_identifier then
     [("groupingIdentifier", JValue.str (p.grouping_identifier.getD ""))] else []) ++
  (if p.sharing_prohibited.isSome then
     [("sharingProhibited", JValue.bool (p.sharing_prohibited.getD false))] else []) ++
  (if p.nfc.isSome then [("nfc", JValue.obj (p.nfc.getD []))] else []) ++
  (if p.semantics.isSome then [("semantics", JValue.obj (p.semantics.getD []))] else []) ++
  (if p.personalization.isSome then
     [("personalization", JValue.obj (p.personalization.getD []))] else []) ++
  (if !(p.upcoming_event_info.getD []).isEmpty then
     [("upcomingEventInfo",
       JValue.arr ((p.upcoming_event_info.getD []).map JValue.obj))]
   else [])

/-- `ApplePass._create_pass_json`: `json.dumps(self, default=pass_handler)`,
i.e. the serialization of `json_dict`'s dictionary. -/
def ApplePass.createPassJson (p : ApplePass) : String :=
  JValue.dumps (.obj p.jsonDict)

/-- UTF-8 bytes of a string (`.encode("utf-8")`). -/
def utf8Bytes (s : String) : List Nat :=
  s.toUTF8.toList.map UInt8.toNat

/-- `ApplePass._create_manifest`: write the SHA-1 of the UTF-8 encoded
`pass.json` into `self._hashes`, then the SHA-1 of each attached file's
bytes, then serialize the hash dict.  Returns the manifest string and the
instance with its mutated `_hashes`.  `sha1Hex` stands for
`hashlib.sha1(...).hexdigest()`. -/
def ApplePass.createManifest (sha1Hex : List Nat → String) (p : ApplePass)
    (passJson : String) : String × ApplePass :=
  let h1 := dictInsert p.hashes "pass.json" (sha1Hex (utf8Bytes passJson))
  let h2 := p.files.foldl (fun acc kv => dictInsert acc kv.1 (sha1Hex kv.2)) h1
  (dumpsStrDict h2, { p with hashes := h2 })

/-- The artifacts `create` produces: the three generated members plus the
zip entry list written by `_create_zip` (string members UTF-8 encoded by
`zipfile.writestr`). -/
structure CreateOutput where
  passJson : String
  manifest : String
  signature : List Nat
  zipEntries : List (String × List Nat)

/-- `ApplePass.create`: required-field validation first (`serial_number`
then `description`, both by Python truthiness on the string), then pass.json
encoding, manifest construction, signing and zipping.  `sha1Hex` and
`signer` stand for the external hash and PKCS#7 library calls; `signer`
receives the manifest string exactly as `_create_signature_crypto` does. -/
def ApplePass.create (sha1Hex : List Nat → String) (signer : String → List Nat)
    (p : ApplePass) : Except String (ApplePass × CreateOutput) :=
  if p.serial_number = "" then .error "serial_number is required"
  else if p.description = "" then .error "description is required"
  else
    let passJson := p.createPassJson
    let mp := p.createManifest sha1Hex passJson
    let manifest := mp.1
    let p2 := mp.2
    let signature := signer manifest
    .ok (p2,
      { passJson := passJson, manifest := manifest, signature := signature
        zipEntries := [("signature", signature),
                       ("manifest.json", utf8Bytes manifest),
                       ("pass.json", utf8Bytes passJson)] ++ p2.files })

/-- The state-and-output pair `create` produces once validation has passed
(the else-branch of `create`, factored out so the determinism theorem can
speak about repeated assembly compactly). -/
def createResult (sha : List Nat → String) (sig : String → List Nat)
    (p : ApplePass) : ApplePass × CreateOutput :=
  let passJson := p.createPassJson
  let mp := p.createManifest sha passJson
  let manifest := mp.1
  let signature := sig manifest
  (mp.2, { passJson := passJson, manifest := manifest, signature := signature
           zipEntries := [("signature", signature),
                          ("manifest.json", utf8Bytes manifest),
                          ("pass.json", utf8Bytes passJson)] ++ mp.2.files })

/-- `ApplePass.add_barcode` at instance level; an error leaves the instance
untouched (the exception is raised before the append). -/
def ApplePass.addBarcode (p : ApplePass) (v : PyVal) :
    Except (String × ApplePass) ApplePass :=
  match addBarcodeChecked p.barcodes v with
  | .ok bs => .ok { p with barcodes := bs }
  | .error e => .error (e, p)

/-- `ApplePass.add_location` at instance level; an error leaves the instance
untouched. -/
def ApplePass.addLocation (p : ApplePass) (v : PyVal) :
    Except (String × ApplePass) ApplePass :=
  match addLocationChecked p.locations v with
  | .ok ls => .ok { p with locations := ls }
  | .error e => .error (e, p)

/-- `ApplePass.add_beacon` at instance level; an error leaves the instance
untouched. -/
def ApplePass.addBeacon (p : ApplePass) (v : PyVal) :
    Except (String × ApplePass) ApplePass :=
  match addBeaconChecked p.beacons v with
  | .ok bs => .ok { p with beacons := bs }
  | .error e => .error (e, p)

/-- `ApplePass.add_relevant_date` at instance level; an error leaves the
instance untouched. -/
def ApplePass.addRelevantDate (p : ApplePass) (v : PyVal) :
    Except (String × ApplePass) ApplePass :=
  match addRelevantDateChecked p.relevant_dates v with
  | .ok rs => .ok { p with relevant_dates := rs }
  | .error e => .error (e, p)

/-! ## Concrete fixtures used by the example and witness theorems -/

/-- Fixture: a minimal `PassInformation` (an empty coupon). -/
def couponInfo : PassInfo := { variant := .coupon, payload := [] }

/-- Fixture: a pass exactly as `__init__` leaves it. -/
def freshPass : ApplePass :=
  ApplePass.initial couponInfo "pass.com.example" "Example Corp" "A1B2C3D4E5"

/-- Fixture: a CODE128 barcode with the default encoding and no alt text. -/
def code128Fix : Barcode :=
  { format := BarcodeFormat.CODE128, message := "12345"
    messageEncoding := "iso-8859-1", altText := none }

/-- Fixture: a pass whose only barcode has the modern CODE128 format. -/
def code128Pass : ApplePass :=
  { freshPass with serial_number := "SER-1", description := "A coupon"
                   barcodes := [code128Fix] }

/-- Fixture: stand-in digest function (witnesses only quantify over it). -/
def shaFix : List Nat → String := fun bs => "h" ++ toString bs.length

/-- Fixture: stand-in signer function. -/
def signerFix : String → List Nat := fun s => [s.length]

/-- Fixture: a pass ready to assemble, with two attached assets. -/
def assembledPass : ApplePass :=
  { freshPass with serial_number := "SER-1", description := "A coupon"
                   files := [("icon.png", [1, 2, 3]), ("logo.png", [4, 5])] }

/-- Fixture location. -/
def locFix : Location := Location.init (some 37) (some (-122)) none none none

/-- Fixture beacon. -/
def beaconFix : IBeacon :=
  IBeacon.init "E2C56DB5-DFFB-48D2-B060-D0F5A71096E0" none none none

/-- Fixture: an interval-only relevant date. -/
def rdIntervalFix : RelevantDate :=
  { date := none, startDate := some "2026-03-15T18:00:00-08:00",
    endDate := some "2026-03-15T22:00:00-08:00" }

/-- Fixture: a single-date relevant date. -/
def rdDateFix : RelevantDate :=
  { date := some "2026-03-16T10:00:00-08:00", startDate := none, endDate := none }

/-- Fixture: a pass already holding ten locations (the cap). -/
def tenLocPass : ApplePass := { freshPass with locations := List.replicate 10 locFix }

/-- Fixture: a pass already holding ten beacons (the cap). -/
def tenBeaconPass : ApplePass := { freshPass with beacons := List.replicate 10 beaconFix }

/-- Fixture: two relevant dates, the first interval-only. -/
def relDatesPass : ApplePass :=
  { freshPass with serial_number := "SER-1", description := "A coupon"
                   relevant_dates := [rdIntervalFix, rdDateFix] }

/-! ## Lemmas about ordered dicts -/

theorem dictLookup_cons_ne {α : Type} {k key : String} (h : k ≠ key) (v : α)
    (l : List (String × α)) : dictLookup ((k, v) :: l) key = dictLookup l key := by
  simp [dictLookup, h]

theorem dictLookup_cons_self {α : Type} (k : String) (v : α)
    (l : List (String × α)) : dictLookup ((k, v) :: l) k = some v := by
  simp [dictLookup]

theorem dictLookup_eq_none_of_notmem {α : Type} {l : List (String × α)} {key : String}
    (h : key ∉ dictKeys l) : dictLookup l key = none := by
  induction l with
  | nil => rfl
  | cons kv rest ih =>
    simp only [dictKeys, List.map_cons, List.mem_cons] at h
    push_neg at h
    simp [dictLookup, Ne.symm h.1, ih (by simpa [dictKeys] using h.2)]

theorem dictLookup_append_of_notmem {α : Type} {l1 : List (String × α)} {key : String}
    (h : key ∉ dictKeys l1) (l2 : List (String × α)) :
    dictLookup (l1 ++ l2) key = dictLookup l2 key := by
  induction l1 with
  | nil => rfl
  | cons kv rest ih =>
    simp only [dictKeys, List.map_cons, List.mem_cons] at h
    push_neg at h
    simp [dictLookup, Ne.symm h.1]
    exact ih (by simpa [dictKeys] using h.2)

theorem dictLookup_ite_append {α : Type} (c : Prop) [Decidable c]
    {xs : List (String × α)} {key : String} (h : key ∉ dictKeys xs)
    (l : List (String × α)) :
    dictLookup ((if c then xs else []) ++ l) key = dictLookup l key := by
  split
  · exact dictLookup_append_of_notmem h l
  · rfl

theorem dictLookup_cons {α : Type} (kv : String × α) (l : List (String × α))
    (key : String) :
    dictLookup (kv :: l) key = if kv.1 = key then some kv.2 else dictLookup l key := by
  cases kv
  rfl

theorem dictLookup_dictInsert_self {α : Type} (l : List (String × α)) (key : String)
    (v : α) : dictLookup (dictInsert l key v) key = some v := by
  unfold dictInsert
  split
  · rename_i hsome
    induction l with
    | nil => simp [dictLookup] at hsome
    | cons kv rest ih =>
      rw [dictLookup_cons] at hsome
      by_cases hk : kv.1 = key
      · simp [List.map_cons, hk, dictLookup_cons]
      · simp only [List.map_cons, if_neg hk]
        rw [dictLookup_cons, if_neg hk]
        exact ih (by simpa [if_neg hk] using hsome)
  · rename_i hnone
    induction l with
    | nil => simp [dictLookup]
    | cons kv rest ih =>
      rw [dictLookup_cons] at hnone
      by_cases hk : kv.1 = key
      · simp [hk] at hnone
      · rw [List.cons_append, dictLookup_cons, if_neg hk]
        exact ih (by simpa [if_neg hk] using hnone)

theorem dictLookup_dictInsert_ne {α : Type} {key k2 : String} (h : k2 ≠ key)
    (l : List (String × α)) (v : α) :
    dictLookup (dictInsert l key v) k2 = dictLookup l k2 := by
  unfold dictInsert
  split
  · rename_i hsome
    clear hsome
    induction l with
    | nil => rfl
    | cons kv rest ih =>
      simp only [List.map_cons]
      rw [dictLookup_cons, dictLookup_cons]
      by_cases hk : kv.1 = key
      · rw [if_pos hk]
        rw [show ((key, v) : String × α).1 = key from rfl] at *
        rw [if_neg (Ne.symm h), hk, if_neg (Ne.symm h)]
        exact ih
      · rw [if_neg hk]
        by_cases h2 : kv.1 = k2
        · simp [h2]
        · rw [if_neg h2, if_neg h2]
          exact ih
  · rename_i hnone
    clear hnone
    induction l with
    | nil => simp [dictLookup, Ne.symm h]
    | cons kv rest ih =>
      rw [List.cons_append, dictLookup_cons, dictLookup_cons]
      by_cases h2 : kv.1 = k2
      · simp [h2]
      · rw [if_neg h2, if_neg h2]
        exact ih

theorem dictInsert_of_notmem {α : Type} {l : List (String × α)} {key : String}
    (h : key ∉ dictKeys l) (v : α) : dictInsert l key v = l ++ [(key, v)] := by
  unfold dictInsert
  rw [dictLookup_eq_none_of_notmem h]
  rfl

theorem map_id_of_no_key {α : Type} {l : List (String × α)} {key : String} {v : α}
    (h : ∀ kv ∈ l, kv.1 ≠ key) :
    l.map (fun kv => if kv.1 = key then (key, v) else kv) = l := by
  induction l with
  | nil => rfl
  | cons kv rest ih =>
    simp only [List.map_cons, if_neg (h kv (by simp)), List.cons.injEq, true_and]
    exact ih (fun x hx => h x (by simp [hx]))

theorem notmem_of_nodup_head {α : Type} {kv : String × α} {rest : List (String × α)}
    (h : (dictKeys (kv :: rest)).Nodup) : ∀ x ∈ rest, x.1 ≠ kv.1 := by
  intro x hx
  simp only [dictKeys, List.map_cons, List.nodup_cons] at h
  intro hcontra
  exact h.1 (hcontra ▸ List.mem_map_of_mem Prod.fst hx)

theorem dictInsert_eq_self {α : Type} {l : List (String × α)} {key : String} {v : α}
    (hnd : (dictKeys l).Nodup) (h : dictLookup l key = some v) :
    dictInsert l key v = l := by
  unfold dictInsert
  rw [h]
  simp only [Option.isSome_some, if_pos]
  induction l with
  | nil => simp [dictLookup] at h
  | cons kv rest ih =>
    rw [dictLookup_cons] at h
    by_cases hk : kv.1 = key
    · rw [if_pos hk] at h
      have hv : kv = (key, v) := by
        cases kv
        simp only at hk
        simp only [Option.some.injEq] at h
        simp [hk, h]
      simp only [List.map_cons, hv, List.cons.injEq, true_and, if_pos]
      apply map_id_of_no_key
      intro x hx
      have hne := notmem_of_nodup_head hnd x hx
      rw [hv] at hne
      simpa using hne
    · rw [if_neg hk] at h
      simp only [List.map_cons, if_neg hk, List.cons.injEq, true_and]
      have hnd2 : (dictKeys rest).Nodup :=
        (List.nodup_cons.mp (by simpa [dictKeys] using hnd)).2
      exact ih hnd2 h

theorem foldl_dictInsert_append {α β : Type} (f : String × β → α)
    (files : List (String × β)) (l : List (String × α))
    (hfresh : ∀ kv ∈ files, kv.1 ∉ dictKeys l)
    (hnd : (files.map Prod.fst).Nodup) :
    List.foldl (fun acc kv => dictInsert acc kv.1 (f kv)) l files =
      l ++ files.map (fun kv => (kv.1, f kv)) := by
  induction files generalizing l with
  | nil => simp
  | cons x rest ih =>
    rw [List.map_cons, List.nodup_cons] at hnd
    have hfresh2 : ∀ kv ∈ rest, kv.1 ∉ dictKeys (l ++ [(x.1, f x)]) := by
      intro kv hkv
      have h1 : kv.1 ∉ dictKeys l := hfresh kv (by simp [hkv])
      have h2 : kv.1 ≠ x.1 := by
        intro hc
        exact hnd.1 (hc ▸ List.mem_map_of_mem Prod.fst hkv)
      simp only [dictKeys, List.map_append, List.mem_append, List.map_cons,
        List.map_nil, List.mem_singleton] at h1 ⊢
      rintro (hc | hc)
      · exact h1 hc
      · exact h2 hc
    simp only [List.foldl_cons, List.map_cons]
    rw [dictInsert_of_notmem (hfresh x (by simp)) (f x),
        ih (l ++ [(x.1, f x)]) hfresh2 hnd.2]
    simp

theorem dictLookup_map_pairs {α β : Type} (f : String × β → α)
    {files : List (String × β)} (hnd : (files.map Prod.fst).Nodup)
    {kv : String × β} (hkv : kv ∈ files) :
    dictLookup (files.map (fun x => (x.1, f x))) kv.1 = some (f kv) := by
  induction files with
  | nil => cases hkv
  | cons x rest ih =>
    rw [List.map_cons, List.nodup_cons] at hnd
    rcases List.mem_cons.mp hkv with h | h
    · subst h
      simp [dictLookup_cons]
    · have hne : x.1 ≠ kv.1 := by
        intro hc
        exact hnd.1 (hc ▸ List.mem_map_of_mem Prod.fst h)
      rw [List.map_cons, dictLookup_cons, if_neg hne]
      exact ih hnd.2 h

theorem foldl_dictInsert_eq_self {α β : Type} (f : String × β → α)
    (files : List (String × β)) (l : List (String × α))
    (hnd : (dictKeys l).Nodup)
    (h : ∀ kv ∈ files, dictLookup l kv.1 = some (f kv)) :
    List.foldl (fun acc kv => dictInsert acc kv.1 (f kv)) l files = l := by
  induction files with
  | nil => rfl
  | cons x rest ih =>
    simp only [List.foldl_cons]
    rw [dictInsert_eq_self hnd (h x (by simp))]
    exact ih (fun kv hkv => h kv (by simp [hkv]))

/-! ## Claim theorems -/

/-- C9: `hex_to_rgb "#FFFFFF"` returns `"rgb(255, 255, 255)"`;
`hex_to_rgb "F60"` returns `"rgb(255, 102, 0)"` (each digit of a 3-digit
form is doubled); `hex_to_rgb "GG0000"` raises a value error because the
string contains non-hex characters. -/
theorem hex_to_rgb_spec_examples :
    hex_to_rgb "#FFFFFF" = .ok "rgb(255, 255, 255)" ∧
    hex_to_rgb "F60" = .ok "rgb(255, 102, 0)" ∧
    hex_to_rgb "GG0000" =
      .error "Invalid hex color: \x27GG0000\x27 contains non-hex characters" :=
  ⟨rfl, rfl, rfl⟩

/-- C8: code bug.  `Location.__init__` performs no range check: a numeric
latitude of 100.0 (outside [-90, 90]) and longitude of 200.0 (outside
[-180, 180]) are stored verbatim rather than degrading to 0.0, contradicting
the class docstring ("Values outside this range will be clamped to 0.0") and
the claim; only an unparseable input (a failed `float(...)`) falls back to
0.0.  Construction itself is total, as the claim says. -/
theorem location_stores_out_of_range_coordinates :
    (Location.init (some 100) (some 200) none none none).latitude = 100 ∧
    (Location.init (some 100) (some 200) none none none).longitude = 200 ∧
    (100 : ℚ) ≠ 0 ∧
    (Location.init none none none none none).latitude = 0 ∧
    (Location.init none none none none none).longitude = 0 :=
  ⟨rfl, rfl, by norm_num, rfl, rfl⟩

/-- C5: `RelevantDate` construction succeeds precisely for the two mutually
exclusive forms (a single date with neither interval bound, or both interval
bounds with no single date); mixing the forms raises the mutual-exclusion
error, no arguments raises the missing-argument error, and a start date
without an end date raises the pairing error. -/
theorem relevantDate_init_valid_forms (date start_date end_date : Option String) :
    ((∃ r, RelevantDate.init date start_date end_date = .ok r) ↔
      ((strTruthy date = true ∧ strTruthy start_date = false ∧
        strTruthy end_date = false) ∨
       (strTruthy date = false ∧ strTruthy start_date = true ∧
        strTruthy end_date = true))) ∧
    RelevantDate.init (some "2026-03-15T19:00:00-08:00")
        (some "2026-03-15T18:00:00-08:00") none =
      .error ("Cannot specify both \x27date\x27 and \x27start_date/end_date\x27. " ++
        "Use \x27date\x27 for auto-calculated interval OR \x27start_date/end_date\x27 for explicit interval.") ∧
    RelevantDate.init none none none =
      .error "Must provide either \x27date\x27 or both \x27start_date\x27 and \x27end_date\x27." ∧
    RelevantDate.init none (some "2026-03-15T18:00:00-08:00") none =
      .error "Both \x27start_date\x27 and \x27end_date\x27 must be provided together." := by
  refine ⟨?_, rfl, rfl, rfl⟩
  unfold RelevantDate.init
  cases htd : strTruthy date <;> cases hts : strTruthy start_date <;>
    cases hte : strTruthy end_date <;> simp [htd, hts, hte]

/-- C1: code bug.  With a single CODE128 barcode (default encoding, no alt
text), the modern array keeps the original entry but the synthesized legacy
entry carries messageEncoding "" and altText "iso-8859-1": the conversion in
`json_dict` passes `Barcode.__init__`'s `encoding` and `alt_text` arguments
positionally in swapped order, so the legacy field does not preserve the
first barcode's messageEncoding. -/
theorem legacy_barcode_swaps_encoding_and_alt_text :
    dictLookup code128Pass.jsonDict "barcodes" =
      some (.arr [.obj [("format", .str "PKBarcodeFormatCode128"),
                        ("message", .str "12345"),
                        ("messageEncoding", .str "iso-8859-1")]]) ∧
    dictLookup code128Pass.jsonDict "barcode" =
      some (.obj [("format", .str "PKBarcodeFormatPDF417"),
                  ("message", .str "12345"),
                  ("messageEncoding", .str ""),
                  ("altText", .str "iso-8859-1")]) :=
  ⟨rfl, rfl⟩

/-- C6: `add_location` succeeds and appends exactly when fewer than ten
locations are attached, and raises the cardinality error — leaving the
instance unchanged — once ten are present; `add_beacon` behaves identically
on the beacon list. -/
theorem add_location_add_beacon_cap (p : ApplePass) (l : Location) (b : IBeacon) :
    (p.locations.length < 10 →
      p.addLocation (.pyLocation l) =
        .ok { p with locations := p.locations ++ [l] }) ∧
    (10 ≤ p.locations.length →
      p.addLocation (.pyLocation l) =
        .error ("Maximum 10 locations allowed per pass", p)) ∧
    (p.beacons.length < 10 →
      p.addBeacon (.pyBeacon b) = .ok { p with beacons := p.beacons ++ [b] }) ∧
    (10 ≤ p.beacons.length →
      p.addBeacon (.pyBeacon b) =
        .error ("Maximum 10 beacons allowed per pass", p)) := by
  refine ⟨fun h => ?_, fun h => ?_, fun h => ?_, fun h => ?_⟩
  · simp [ApplePass.addLocation, addLocationChecked, Nat.not_le.mpr h]
  · simp [ApplePass.addLocation, addLocationChecked, h]
  · simp [ApplePass.addBeacon, addBeaconChecked, Nat.not_le.mpr h]
  · simp [ApplePass.addBeacon, addBeaconChecked, h]

/-- Witness for C6: the fixture holding ten locations rejects an eleventh
location with the state unchanged, a fresh pass accepts one, and the fixture
holding ten beacons rejects an eleventh beacon. -/
theorem add_location_add_beacon_cap_witness :
    (10 ≤ tenLocPass.locations.length ∧
      tenLocPass.addLocation (.pyLocation locFix) =
        .error ("Maximum 10 locations allowed per pass", tenLocPass)) ∧
    (freshPass.locations.length < 10 ∧
      freshPass.addLocation (.pyLocation locFix) =
        .ok { freshPass with locations := freshPass.locations ++ [locFix] }) ∧
    (10 ≤ tenBeaconPass.beacons.length ∧
      tenBeaconPass.addBeacon (.pyBeacon beaconFix) =
        .error ("Maximum 10 beacons allowed per pass", tenBeaconPass)) :=
  ⟨⟨by decide,
    (add_location_add_beacon_cap tenLocPass locFix beaconFix).2.1 (by decide)⟩,
   ⟨by decide,
    (add_location_add_beacon_cap freshPass locFix beaconFix).1 (by decide)⟩,
   ⟨by decide,
    (add_location_add_beacon_cap tenBeaconPass locFix beaconFix).2.2.2 (by decide)⟩⟩

/-- C3: `create` validates the required fields before any other work: an
empty serial number (checked first) or an empty description raises the
matching required-field error and the result is independent of the digest
and signer functions, so neither external operation is ever invoked; with
both fields non-empty, validation passes and assembly produces an output. -/
theorem create_validates_required_fields (p : ApplePass)
    (sha1 sha2 : List Nat → String) (sig1 sig2 : String → List Nat) :
    (p.serial_number = "" →
      p.create sha1 sig1 = .error "serial_number is required" ∧
      p.create sha1 sig1 = p.create sha2 sig2) ∧
    (p.serial_number ≠ "" → p.description = "" →
      p.create sha1 sig1 = .error "description is required" ∧
      p.create sha1 sig1 = p.create sha2 sig2) ∧
    (p.serial_number ≠ "" → p.description ≠ "" →
      ∃ st out, p.create sha1 sig1 = .ok (st, out)) := by
  refine ⟨fun h => ?_, fun h1 h2 => ?_, fun h1 h2 => ?_⟩
  · unfold ApplePass.create
    simp only [if_pos h]
    exact ⟨trivial, trivial⟩
  · unfold ApplePass.create
    simp only [if_neg h1, if_pos h2]
    exact ⟨trivial, trivial⟩
  · unfold ApplePass.create
    rw [if_neg h1, if_neg h2]
    exact ⟨_, _, rfl⟩

/-- Witness for C3: the fresh pass (empty serial number) is rejected with
the serial-number error under two different external stand-ins, and the
assembled fixture passes validation. -/
theorem create_validates_required_fields_witness :
    freshPass.serial_number = "" ∧
    freshPass.create shaFix signerFix = .error "serial_number is required" ∧
    freshPass.create shaFix signerFix =
      freshPass.create (fun _ => "") (fun _ => []) ∧
    ∃ st out, assembledPass.create shaFix signerFix = .ok (st, out) := by
  refine ⟨rfl, ?_, ?_, ?_⟩
  · exact ((create_validates_required_fields freshPass shaFix (fun _ => "")
      signerFix (fun _ => [])).1 rfl).1
  · exact ((create_validates_required_fields freshPass shaFix (fun _ => "")
      signerFix (fun _ => [])).1 rfl).2
  · exact (create_validates_required_fields assembledPass shaFix shaFix
      signerFix signerFix).2.2 (by decide) (by decide)

theorem createManifest_fresh (p : ApplePass) (sha : List Nat → String) (pj : String)
    (h0 : p.hashes = []) (hnd : (p.files.map Prod.fst).Nodup)
    (hpj : "pass.json" ∉ p.files.map Prod.fst) :
    p.createManifest sha pj =
      (dumpsStrDict (("pass.json", sha (utf8Bytes pj)) ::
         p.files.map (fun kv => (kv.1, sha kv.2))),
       { p with hashes := ("pass.json", sha (utf8Bytes pj)) ::
         p.files.map (fun kv => (kv.1, sha kv.2)) }) := by
  have hfresh : ∀ kv ∈ p.files,
      kv.1 ∉ dictKeys [("pass.json", sha (utf8Bytes pj))] := by
    intro kv hkv
    simp only [dictKeys, List.map_cons, List.map_nil, List.mem_singleton]
    intro hc
    exact hpj (hc ▸ List.mem_map_of_mem Prod.fst hkv)
  unfold ApplePass.createManifest
  rw [h0]
  simp only [show dictInsert ([] : List (String × String)) "pass.json"
      (sha (utf8Bytes pj)) = [("pass.json", sha (utf8Bytes pj))] from rfl,
    foldl_dictInsert_append (fun kv => sha kv.2) p.files _ hfresh hnd,
    List.singleton_append]

theorem createManifest_stable (p : ApplePass) (sha : List Nat → String) (pj : String)
    (h : p.hashes = ("pass.json", sha (utf8Bytes pj)) ::
      p.files.map (fun kv => (kv.1, sha kv.2)))
    (hnd : (p.files.map Prod.fst).Nodup)
    (hpj : "pass.json" ∉ p.files.map Prod.fst) :
    p.createManifest sha pj = (dumpsStrDict p.hashes, p) := by
  have hnodup : (dictKeys p.hashes).Nodup := by
    rw [h]
    simp only [dictKeys, List.map_cons, List.map_map, List.nodup_cons]
    constructor
    · simpa [Function.comp] using hpj
    · simpa [Function.comp] using hnd
  have hlook : dictLookup p.hashes "pass.json" = some (sha (utf8Bytes pj)) := by
    rw [h]
    exact dictLookup_cons_self _ _ _
  have hvals : ∀ kv ∈ p.files, dictLookup p.hashes kv.1 =
      some ((fun kv : String × List Nat => sha kv.2) kv) := by
    intro kv hkv
    have hne : ("pass.json" : String) ≠ kv.1 := by
      intro hc
      exact hpj (by rw [hc]; exact List.mem_map_of_mem Prod.fst hkv)
    rw [h, dictLookup_cons_ne hne]
    exact dictLookup_map_pairs (fun kv => sha kv.2) hnd hkv
  unfold ApplePass.createManifest
  simp only [dictInsert_eq_self hnodup hlook,
    foldl_dictInsert_eq_self (fun kv => sha kv.2) p.files p.hashes hnodup hvals]

/-- C7: starting from a freshly constructed pass (empty hash dict), the
manifest's hash dict maps exactly "pass.json" plus each attached asset name:
"pass.json" to the digest of the UTF-8 encoded canonical document, and each
asset name to the digest of that one asset's bytes alone. -/
theorem manifest_domain_and_digests (p : ApplePass) (sha : List Nat → String)
    (passJson : String) (h0 : p.hashes = [])
    (hnd : (p.files.map Prod.fst).Nodup)
    (hpj : "pass.json" ∉ p.files.map Prod.fst) :
    dictKeys (p.createManifest sha passJson).2.hashes =
      "pass.json" :: p.files.map Prod.fst ∧
    dictLookup (p.createManifest sha passJson).2.hashes "pass.json" =
      some (sha (utf8Bytes passJson)) ∧
    ∀ kv ∈ p.files,
      dictLookup (p.createManifest sha passJson).2.hashes kv.1 =
        some (sha kv.2) := by
  rw [createManifest_fresh p sha passJson h0 hnd hpj]
  refine ⟨?_, ?_, ?_⟩
  · simp [dictKeys, List.map_map, Function.comp]
  · exact dictLookup_cons_self _ _ _
  · intro kv hkv
    have hne : ("pass.json" : String) ≠ kv.1 := by
      intro hc
      exact hpj (by rw [hc]; exact List.mem_map_of_mem Prod.fst hkv)
    rw [dictLookup_cons_ne hne]
    exact dictLookup_map_pairs (fun kv => sha kv.2) hnd hkv

/-- Witness for C7: the assembled fixture (fresh hash dict, assets icon.png
and logo.png) yields a manifest over exactly those names with the expected
per-file digests. -/
theorem manifest_domain_and_digests_witness :
    assembledPass.hashes = [] ∧
    dictKeys (assembledPass.createManifest shaFix "doc").2.hashes =
      "pass.json" :: assembledPass.files.map Prod.fst ∧
    dictLookup (assembledPass.createManifest shaFix "doc").2.hashes "pass.json" =
      some (shaFix (utf8Bytes "doc")) ∧
    ∀ kv ∈ assembledPass.files,
      dictLookup (assembledPass.createManifest shaFix "doc").2.hashes kv.1 =
        some (shaFix kv.2) := by
  have h := manifest_domain_and_digests assembledPass shaFix "doc" rfl
    (by decide) (by decide)
  exact ⟨rfl, h.1, h.2.1, h.2.2⟩

theorem create_ok_of_valid (sha : List Nat → String) (sig : String → List Nat)
    (q : ApplePass) (h1 : q.serial_number ≠ "") (h2 : q.description ≠ "") :
    q.create sha sig = .ok (createResult sha sig q) := by
  unfold ApplePass.create createResult
  rw [if_neg h1, if_neg h2]

/-- C2: assembly is deterministic: with valid required fields, creating
twice in a row — the second call running on the exact instance state the
first call left behind, with no intervening mutation — succeeds again and
yields a byte-identical canonical pass.json string, an identical manifest
string, and an unchanged hash dict. -/
theorem create_deterministic (p : ApplePass) (sha : List Nat → String)
    (sig : String → List Nat) (hser : p.serial_number ≠ "")
    (hdes : p.description ≠ "") (h0 : p.hashes = [])
    (hnd : (p.files.map Prod.fst).Nodup)
    (hpj : "pass.json" ∉ p.files.map Prod.fst) :
    p.create sha sig = .ok (createResult sha sig p) ∧
    (createResult sha sig p).1.create sha sig =
      .ok (createResult sha sig (createResult sha sig p).1) ∧
    (createResult sha sig (createResult sha sig p).1).2.passJson =
      (createResult sha sig p).2.passJson ∧
    (createResult sha sig (createResult sha sig p).1).2.manifest =
      (createResult sha sig p).2.manifest ∧
    (createResult sha sig (createResult sha sig p).1).1.hashes =
      (createResult sha sig p).1.hashes := by
  have hfirst := createManifest_fresh p sha p.createPassJson h0 hnd hpj
  have hres1 : (createResult sha sig p).1 =
      { p with hashes := ("pass.json", sha (utf8Bytes p.createPassJson)) ::
                         p.files.map (fun kv => (kv.1, sha kv.2)) } := by
    simp only [createResult, hfirst]
  have hstable := createManifest_stable
    ({ p with hashes := ("pass.json", sha (utf8Bytes p.createPassJson)) ::
              p.files.map (fun kv => (kv.1, sha kv.2)) } : ApplePass) sha
    (({ p with hashes := ("pass.json", sha (utf8Bytes p.createPassJson)) ::
               p.files.map (fun kv => (kv.1, sha kv.2)) } : ApplePass).createPassJson)
    rfl hnd hpj
  refine ⟨create_ok_of_valid sha sig p hser hdes,
    create_ok_of_valid sha sig _ hser hdes, rfl, ?_, ?_⟩
  · rw [hres1]
    simp only [createResult, hstable, hfirst]
  · rw [hres1]
    simp only [createResult, hstable, hfirst]

theorem addLocationsLoop_ok (new : List Location) (ls : List Location)
    (h : ls.length + new.length ≤ 10) :
    addLocationsLoop ls (new.map .pyLocation) = .ok (ls ++ new) := by
  induction new generalizing ls with
  | nil => simp [addLocationsLoop]
  | cons x rest ih =>
    have hlen : ¬ ls.length ≥ 10 := by
      simp only [List.length_cons] at h
      omega
    simp only [List.map_cons, addLocationsLoop, addLocationChecked, if_neg hlen]
    rw [ih (ls ++ [x]) (by simp only [List.length_append, List.length_cons,
      List.length_singleton, List.length_nil] at h ⊢; omega)]
    simp

theorem addBeaconsLoop_ok (new : List IBeacon) (bs : List IBeacon)
    (h : bs.length + new.length ≤ 10) :
    addBeaconsLoop bs (new.map .pyBeacon) = .ok (bs ++ new) := by
  induction new generalizing bs with
  | nil => simp [addBeaconsLoop]
  | cons x rest ih =>
    have hlen : ¬ bs.length ≥ 10 := by
      simp only [List.length_cons] at h
      omega
    simp only [List.map_cons, addBeaconsLoop, addBeaconChecked, if_neg hlen]
    rw [ih (bs ++ [x]) (by simp only [List.length_append, List.length_cons,
      List.length_singleton, List.length_nil] at h ⊢; omega)]
    simp

/-- C10: `__setattr__` never stores the four deprecated attribute names
themselves: assigning a Barcode to `barcode` appends it to the internal
list, `None` leaves the pass entirely unchanged, and any other value raises
a type error leaving the pass unchanged; `locations` and `ibeacons` append
lists element-wise (and treat `None` as a no-op); `relevant_date` appends a
RelevantDate and ignores `None`; every other attribute name is stored
normally through the default setter. -/
theorem setattr_redirects_deprecated_names (p : ApplePass) (b : Barcode)
    (r : RelevantDate) (ls : List Location) (bs : List IBeacon) (v : PyVal)
    (name : String) :
    (p.setattr "barcode" (.pyBarcode b) =
      .ok { p with barcodes := p.barcodes ++ [b] }) ∧
    (p.setattr "barcode" .pyNone = .ok p) ∧
    ((∀ b2, v ≠ .pyBarcode b2) → v ≠ .pyNone →
      p.setattr "barcode" v =
        .error ("barcode must be a Barcode instance, got " ++ v.typeName, p)) ∧
    (p.locations.length + ls.length ≤ 10 →
      p.setattr "locations" (.pyList (ls.map .pyLocation)) =
        .ok { p with locations := p.locations ++ ls }) ∧
    (p.setattr "locations" .pyNone = .ok p) ∧
    (p.beacons.length + bs.length ≤ 10 →
      p.setattr "ibeacons" (.pyList (bs.map .pyBeacon)) =
        .ok { p with beacons := p.beacons ++ bs }) ∧
    (p.setattr "ibeacons" .pyNone = .ok p) ∧
    (p.setattr "relevant_date" (.pyRelevantDate r) =
      .ok { p with relevant_dates := p.relevant_dates ++ [r] }) ∧
    (p.setattr "relevant_date" .pyNone = .ok p) ∧
    (name ≠ "barcode" → name ≠ "locations" → name ≠ "ibeacons" →
      name ≠ "relevant_date" →
      p.setattr name v = .ok { p with extra := dictInsert p.extra name v }) := by
  refine ⟨?_, ?_, fun hb hn => ?_, fun hl => ?_, ?_, fun hbe => ?_, ?_, ?_, ?_,
    fun h1 h2 h3 h4 => ?_⟩
  · simp [ApplePass.setattr, addBarcodeChecked, PyVal.isNone]
  · simp [ApplePass.setattr, PyVal.isNone]
  · cases v with
    | pyNone => exact absurd rfl hn
    | pyBarcode b2 => exact absurd rfl (hb b2)
    | pyStr s => simp [ApplePass.setattr, addBarcodeChecked, PyVal.typeName, PyVal.isNone]
    | pyLocation l => simp [ApplePass.setattr, addBarcodeChecked, PyVal.typeName, PyVal.isNone]
    | pyBeacon b3 => simp [ApplePass.setattr, addBarcodeChecked, PyVal.typeName, PyVal.isNone]
    | pyRelevantDate r2 =>
      simp [ApplePass.setattr, addBarcodeChecked, PyVal.typeName, PyVal.isNone]
    | pyList xs => simp [ApplePass.setattr, addBarcodeChecked, PyVal.typeName, PyVal.isNone]
  · simp [ApplePass.setattr, PyVal.isNone, PyVal.asList,
      addLocationsLoop_ok ls p.locations hl]
  · simp [ApplePass.setattr, PyVal.isNone]
  · simp [ApplePass.setattr, PyVal.isNone, PyVal.asList,
      addBeaconsLoop_ok bs p.beacons hbe]
  · simp [ApplePass.setattr, PyVal.isNone]
  · simp [ApplePass.setattr, addRelevantDateChecked, PyVal.isNone]
  · simp [ApplePass.setattr, PyVal.isNone]
  · unfold ApplePass.setattr
    rw [if_neg h1, if_neg h2, if_neg h3, if_neg h4]

/-- Witness for C2: the assembled fixture (non-empty serial number and
description, fresh hash dict, two distinctly named assets) assembles twice
with identical document and manifest. -/
theorem create_deterministic_witness :
    assembledPass.serial_number ≠ "" ∧
    assembledPass.create shaFix signerFix =
      .ok (createResult shaFix signerFix assembledPass) ∧
    (createResult shaFix signerFix assembledPass).1.create shaFix signerFix =
      .ok (createResult shaFix signerFix
        (createResult shaFix signerFix assembledPass).1) ∧
    (createResult shaFix signerFix
        (createResult shaFix signerFix assembledPass).1).2.passJson =
      (createResult shaFix signerFix assembledPass).2.passJson ∧
    (createResult shaFix signerFix
        (createResult shaFix signerFix assembledPass).1).2.manifest =
      (createResult shaFix signerFix assembledPass).2.manifest := by
  have h := create_deterministic assembledPass shaFix signerFix (by decide)
    (by decide) rfl (by decide) (by decide)
  exact ⟨by decide, h.1, h.2.1, h.2.2.1, h.2.2.2.1⟩

/-- Witness for C10: on the fresh fixture, a Barcode assigned to `barcode`
is appended, a string assigned to `barcode` raises the type error with the
pass unchanged, a one-element location list is appended element-wise, and an
unrelated attribute name is stored normally. -/
theorem setattr_redirects_deprecated_names_witness :
    (freshPass.setattr "barcode" (.pyBarcode code128Fix) =
      .ok { freshPass with barcodes := freshPass.barcodes ++ [code128Fix] }) ∧
    (freshPass.setattr "barcode" (.pyStr "oops") =
      .error ("barcode must be a Barcode instance, got str", freshPass)) ∧
    (freshPass.locations.length + [locFix].length ≤ 10 ∧
      freshPass.setattr "locations" (.pyList ([locFix].map .pyLocation)) =
        .ok { freshPass with locations := freshPass.locations ++ [locFix] }) ∧
    (freshPass.setattr "serial_number" (.pyStr "S") =
      .ok { freshPass with
              extra := dictInsert freshPass.extra "serial_number" (.pyStr "S") }) := by
  have h := setattr_redirects_deprecated_names freshPass code128Fix rdDateFix
    [locFix] [] (.pyStr "oops") "serial_number"
  have h2 := setattr_redirects_deprecated_names freshPass code128Fix rdDateFix
    [locFix] [] (.pyStr "S") "serial_number"
  refine ⟨h.1, ?_, ⟨by decide, h.2.2.2.1 (by decide)⟩, ?_⟩
  · exact h.2.2.1 (fun b2 => by simp) (by simp)
  · exact h2.2.2.2.2.2.2.2.2.2 (by decide) (by decide) (by decide) (by decide)

theorem variant_jsonname_ne (v : PassVariant) (k : String)
    (hk : "boardingPass" ≠ k ∧ "coupon" ≠ k ∧ "eventTicket" ≠ k ∧
      "generic" ≠ k ∧ "storeCard" ≠ k) :
    v.jsonname ≠ k := by
  cases v <;>
    simp [PassVariant.jsonname, hk.1, hk.2.1, hk.2.2.1, hk.2.2.2.1, hk.2.2.2.2]

theorem dictLookup_ite_append2 {α : Type} (c : Prop) [Decidable c]
    {xs ys : List (String × α)} {key : String} (hx : key ∉ dictKeys xs)
    (hy : key ∉ dictKeys ys) (l : List (String × α)) :
    dictLookup ((if c then xs else ys) ++ l) key = dictLookup l key := by
  split
  · exact dictLookup_append_of_notmem hx l
  · exact dictLookup_append_of_notmem hy l

theorem dictLookup_ite_none {α : Type} (c : Prop) [Decidable c]
    {xs : List (String × α)} {key : String} (h : key ∉ dictKeys xs) :
    dictLookup (if c then xs else []) key = none := by
  split
  · exact dictLookup_eq_none_of_notmem h
  · rfl

/-- C4: with at least one relevant date attached (first-attached order), the
modern relevantDates array holds one entry per attached date containing
whichever of its date / startDate / endDate values are populated — an entry
contributing no key is dropped, and the key itself is omitted when no entry
survives — while the legacy singular relevantDate equals the first entry's
date when populated, else its startDate, else its endDate. -/
theorem relevant_dates_dual_emission (p : ApplePass) (first : RelevantDate)
    (rest : List RelevantDate) (h : p.relevant_dates = first :: rest) :
    dictLookup p.jsonDict "relevantDates" =
      (if (((first :: rest).map RelevantDate.entryDict).filter
            (fun e => !e.isEmpty)).isEmpty then none
       else some (.arr ((((first :: rest).map RelevantDate.entryDict).filter
            (fun e => !e.isEmpty)).map JValue.obj))) ∧
    dictLookup p.jsonDict "relevantDate" =
      some (if strTruthy first.date then .str (first.date.getD "")
            else if strTruthy first.startDate then .str (first.startDate.getD "")
            else optStrJ first.endDate) := by
  have hv1 : p.pass_information.variant.jsonname ≠ "relevantDates" :=
    variant_jsonname_ne _ _ (by decide)
  have hv2 : p.pass_information.variant.jsonname ≠ "relevantDate" :=
    variant_jsonname_ne _ _ (by decide)
  constructor
  · simp only [ApplePass.jsonDict, h]
    cases hb : p.barcodes with
    | nil =>
      cases he : (((first :: rest).map RelevantDate.entryDict).filter
          (fun e => !e.isEmpty)).isEmpty with
      | false =>
        simp [dictLookup_cons, dictLookup_ite_append2, dictLookup_ite_none,
          hv1, dictKeys]
      | true =>
        simp [dictLookup_cons, dictLookup_ite_append2, dictLookup_ite_none,
          hv1, dictKeys]
    | cons b bs =>
      cases he : (((first :: rest).map RelevantDate.entryDict).filter
          (fun e => !e.isEmpty)).isEmpty with
      | false =>
        simp [dictLookup_cons, dictLookup_ite_append2, dictLookup_ite_none,
          hv1, dictKeys]
      | true =>
        simp [dictLookup_cons, dictLookup_ite_append2, dictLookup_ite_none,
          hv1, dictKeys]
  · simp only [ApplePass.jsonDict, h]
    cases hb : p.barcodes with
    | nil =>
      simp [dictLookup_cons, dictLookup_ite_append2, dictLookup_ite_none,
        hv2, dictKeys]
    | cons b bs =>
      simp [dictLookup_cons, dictLookup_ite_append2, dictLookup_ite_none,
        hv2, dictKeys]

/-- Witness for C4: the fixture with two relevant dates, the first
interval-only (no single date), emits both entries in the modern array and
the first entry's startDate as the legacy singular value. -/
theorem relevant_dates_dual_emission_witness :
    relDatesPass.relevant_dates = rdIntervalFix :: [rdDateFix] ∧
    dictLookup relDatesPass.jsonDict "relevantDates" =
      (if (((rdIntervalFix :: [rdDateFix]).map RelevantDate.entryDict).filter
            (fun e => !e.isEmpty)).isEmpty then none
       else some (.arr ((((rdIntervalFix :: [rdDateFix]).map
            RelevantDate.entryDict).filter
            (fun e => !e.isEmpty)).map JValue.obj))) ∧
    dictLookup relDatesPass.jsonDict "relevantDate" =
      some (.str "2026-03-15T18:00:00-08:00") := by
  have hh := relevant_dates_dual_emission relDatesPass rdIntervalFix [rdDateFix] rfl
  refine ⟨rfl, hh.1, ?_⟩
  rw [hh.2]
  rfl
